import Mathlib

/-!
Verification of the quality scoring and comparison engine of codeinsight-mini.

The Python dictionaries read by the code are embedded as structures whose
`Option` fields model possibly-missing dictionary keys; `Option.getD` mirrors
`dict.get(key, default)` and the `x or default` idiom.  Python `float`
arithmetic is modelled by `ℚ`; Python's built-in `round` (round-half-to-even)
is modelled by `pyRound`; Python's `int()` truncation by `ratTrunc`.
Sources embedded here:
`codeinsight/agents/adk_flow_integration.py` (scoring),
`codeinsight/pipeline/runner.py` (comparison),
`codeinsight/recommend/recommender.py` (per-file ranking).
-/

namespace CodeInsight

/-- Python's built-in `round` to an integer: nearest integer, ties to even. -/
def pyRound (q : ℚ) : ℤ :=
  if q - ⌊q⌋ < 1/2 then ⌊q⌋
  else if 1/2 < q - ⌊q⌋ then ⌊q⌋ + 1
  else if ⌊q⌋ % 2 = 0 then ⌊q⌋ else ⌊q⌋ + 1

/-- Python `round(q, n)`: round to `n` decimal digits, ties to even. -/
def pyRoundTo (n : ℕ) (q : ℚ) : ℚ := (pyRound (q * 10 ^ n) : ℚ) / 10 ^ n

/-- Python `int()` applied to a float: truncation toward zero. -/
def ratTrunc (y : ℚ) : ℤ := if 0 ≤ y then ⌊y⌋ else ⌈y⌉

/-- `_clamp` (adk_flow_integration.py lines 44-45):
`int(max(lo, min(hi, x)))`. -/
def _clamp (x : ℚ) (lo : ℚ := 0) (hi : ℚ := 100) : ℤ :=
  ratTrunc (max lo (min hi x))

/-! ## Data model

Shapes of the dictionaries consumed by the scoring and comparison code. -/

/-- One entry of a radon file's `cc_items` list (radon_runner.py line 20). -/
structure CCItem where
  name : String
  line : ℤ
  endLine : ℤ
  cc : Option ℚ
deriving DecidableEq

/-- One entry of the radon `files` list (radon_runner.py lines 16-24);
`mi` and `cc_avg` are optional because consumers default them with `.get`. -/
structure RadonFile where
  path : String
  mi : Option ℚ
  cc_avg : Option ℚ
  cc_items : List CCItem
deriving DecidableEq

/-- The radon `summary` dictionary (radon_runner.py lines 50-54). -/
structure RadonSummary where
  files : Option ℤ
  mi_warnings : Option ℤ
  cc_hotspots : Option ℤ
deriving DecidableEq

/-- The radon result dictionary: `{"summary": ..., "files": ...}`. -/
structure RadonResult where
  summary : Option RadonSummary
  files : Option (List RadonFile)
deriving DecidableEq

/-- The pylint `summary` dictionary: `{"total": ..., "by_type": ...}`.
`by_type` is a dictionary of severity key to count, embedded as its item
list; entries whose value is not an integer (skipped by `_pylint_counts`
via `int(v)`/`except: continue`) are omitted from the embedding. -/
structure PylintSummary where
  total : Option ℤ
  by_type : Option (List (String × ℤ))
deriving DecidableEq

/-- The pylint result dictionary: `{"summary": ...}`. -/
structure PylintResult where
  summary : Option PylintSummary
deriving DecidableEq

/-- The merged analysis-result dictionary, restricted to the keys read by
`_compute_quality_score`, `compare_results` and `build_recommendations`. -/
structure AnalysisResult where
  quality_score : Option ℚ
  issues_found : Option ℤ
  files_scanned : Option ℤ
  pylint : Option PylintResult
  radon : Option RadonResult
deriving DecidableEq

/-- `(result.get("radon") or {}).get("files") or []`. -/
def rFiles (result : AnalysisResult) : List RadonFile :=
  match result.radon with
  | none => []
  | some rad => rad.files.getD []

/-- `(radon.get("summary") or {})`: the radon summary with all keys missing
when the radon result or its summary is absent. -/
def rSummary (result : AnalysisResult) : RadonSummary :=
  match result.radon with
  | none => ⟨none, none, none⟩
  | some rad => rad.summary.getD ⟨none, none, none⟩

/-- `((result.get("pylint") or {}).get("summary") or {})`. -/
def pSummary (result : AnalysisResult) : PylintSummary :=
  match result.pylint with
  | none => ⟨none, none⟩
  | some p => p.summary.getD ⟨none, none⟩

/-- `_pylint_total` (runner.py lines 27-28):
`int(((res.get("pylint") or {}).get("summary") or {}).get("total", 0))`. -/
def _pylint_total (result : AnalysisResult) : ℤ :=
  (pSummary result).total.getD 0

/-- The `by_type` dictionary read at adk_flow_integration.py line 73. -/
def byTypeRaw (result : AnalysisResult) : List (String × ℤ) :=
  (pSummary result).by_type.getD []

/-! ## Quality scoring (`_compute_quality_score`) -/

/-- Normalized pylint severity counts, the `out` dictionary of
`_pylint_counts` (adk_flow_integration.py lines 74-92). -/
structure Counts where
  C : ℤ
  R : ℤ
  W : ℤ
  E : ℤ
  F : ℤ
deriving DecidableEq

/-- Python's notion of whitespace for `str.strip()` (ASCII range). -/
def isPySpace (c : Char) : Bool :=
  c = ' ' ∨ c = '\t' ∨ c = '\n' ∨ c = '\r' ∨ c = '\x0b' ∨ c = '\x0c'

/-- Python `str(k).strip().lower()` (adk_flow_integration.py line 81),
modelled on the character list: whitespace stripped from both ends, then
characters lowercased. -/
def pyNormKey (s : String) : String :=
  ⟨(((s.data.dropWhile isPySpace).reverse.dropWhile isPySpace).reverse).map Char.toLower⟩

/-- One iteration of the `for k, v in bt.items()` loop of `_pylint_counts`:
`key = str(k).strip().lower()`, then bucket by short code or long name. -/
def addCount (out : Counts) (kv : String × ℤ) : Counts :=
  let key := pyNormKey kv.1
  if key = "c" ∨ key = "convention" then { out with C := out.C + kv.2 }
  else if key = "r" ∨ key = "refactor" then { out with R := out.R + kv.2 }
  else if key = "w" ∨ key = "warning" then { out with W := out.W + kv.2 }
  else if key = "e" ∨ key = "error" then { out with E := out.E + kv.2 }
  else if key = "f" ∨ key = "fatal" then { out with F := out.F + kv.2 }
  else out

/-- `_pylint_counts` (adk_flow_integration.py lines 74-92). -/
def _pylint_counts (bt : List (String × ℤ)) : Counts :=
  bt.foldl addCount ⟨0, 0, 0, 0, 0⟩

/-- The weighted pylint penalty:
`sum(PYLINT_W[k] * counts[k] for k in counts)` with
`PYLINT_W = {"C": 0.6, "R": 0.8, "W": 1.0, "E": 3.0, "F": 8.0}`
(adk_flow_integration.py lines 95-96). -/
def pylintPenalty (counts : Counts) : ℚ :=
  (6/10) * counts.C + (8/10) * counts.R + 1 * counts.W
    + 3 * counts.E + 8 * counts.F

/-- The base of the quality score (adk_flow_integration.py lines 65-70):
mean of `float(f.get("mi", 0.0))` over the radon files, computed as
`sum(mi_vals) / max(1, len(mi_vals))`, or the neutral `50.0` when the
file list is empty. -/
def avgMiBase (result : AnalysisResult) : ℚ :=
  let r_files := rFiles result
  if r_files ≠ [] then
    (r_files.map (fun f => f.mi.getD 0)).sum / (max 1 r_files.length : ℕ)
  else 50

/-- `files_scanned` as computed at adk_flow_integration.py line 108:
`len(r_files) or int(rsum.get("files") or 1)` (`or` picks the second
operand when the first is `0`/falsy). -/
def filesScanned (result : AnalysisResult) : ℤ :=
  let r_files := rFiles result
  if r_files.length ≠ 0 then (r_files.length : ℤ)
  else match (rSummary result).files with
    | none => 1
    | some n => if n = 0 then 1 else n

/-- `_compute_quality_score` (adk_flow_integration.py lines 47-117). -/
def _compute_quality_score (result : AnalysisResult) : ℤ :=
  let avg_mi := avgMiBase result
  let counts := _pylint_counts (byTypeRaw result)
  let pylint_penalty := pylintPenalty counts
  let rsum := rSummary result
  let mi_warn : ℤ := rsum.mi_warnings.getD 0
  let cc_hot : ℤ := rsum.cc_hotspots.getD 0
  let radon_penalty : ℚ := 2 * mi_warn + (3/2) * cc_hot
  let total_msgs : ℤ := (pSummary result).total.getD 0
  let per_file : ℚ := (total_msgs : ℚ) / (max 1 (filesScanned result) : ℤ)
  let density_penalty : ℚ := if per_file > 3 then (per_file - 3) * 2 else 0
  let total_penalty := pylint_penalty + radon_penalty + density_penalty
  let raw := avg_mi - total_penalty
  _clamp (pyRound raw : ℚ)

/-! ## Pairwise comparison (`compare_results`, runner.py) -/

/-- `_avg` (runner.py lines 18-19): `sum(seq) / len(seq) if seq else 0.0`. -/
def _avg (seq : List ℚ) : ℚ :=
  if seq ≠ [] then seq.sum / (seq.length : ℕ) else 0

/-- `_radon_avgs` (runner.py lines 21-25): averages of
`float(f.get("mi", 0.0))` and `float(f.get("cc_avg", 0.0))`. -/
def _radon_avgs (res : AnalysisResult) : ℚ × ℚ :=
  let files := rFiles res
  (_avg (files.map (fun f => f.mi.getD 0)),
   _avg (files.map (fun f => f.cc_avg.getD 0)))

/-- One row of the comparison table. -/
structure MetricRow where
  metric : String
  A : ℚ
  B : ℚ
  delta : ℚ
  better : String
deriving DecidableEq

/-- The per-row finishing step of `compare_results` (runner.py lines 53-62):
`delta = round(B - A, 2)`; `better` is `"="` on equal values, otherwise the
side with the larger value for the higher-is-better metrics (`quality_score`,
`mi_avg`) and the side with the smaller value for all other metrics. -/
def finishRow (m : String) (a b : ℚ) : MetricRow :=
  { metric := m, A := a, B := b,
    delta := pyRoundTo 2 (b - a),
    better :=
      if a = b then "="
      else if m = "quality_score" ∨ m = "mi_avg" then
        (if a > b then "A" else "B")
      else
        (if a < b then "A" else "B") }

/-- Python `Path(p).name`: the final component of a POSIX path (the
characters after the last `/`). -/
def baseName (p : String) : String :=
  ⟨(p.data.reverse.takeWhile (fun c => decide (c ≠ '/'))).reverse⟩

/-- One entry of the `top_hotspots` lists (runner.py lines 34-39). -/
structure Hotspot where
  file : String
  cc_avg : ℚ
  mi : ℚ
deriving DecidableEq

/-- The descending-`cc_avg` comparison used by the hotspot sort. -/
def hotspotLe (f g : RadonFile) : Bool :=
  decide (g.cc_avg.getD 0 ≤ f.cc_avg.getD 0)

/-- `sorted(files, key=lambda f: float(f.get("cc_avg", 0.0)), reverse=True)`
(runner.py line 32): a stable descending sort by `cc_avg`. -/
def rankedByCC (files : List RadonFile) : List RadonFile :=
  files.mergeSort hotspotLe

/-- `_top_hotspots` (runner.py lines 30-40): the first `n` files of the
descending-`cc_avg` ordering, projected to `{file, cc_avg, mi}` with the
numeric fields rounded to 1 decimal. -/
def _top_hotspots (res : AnalysisResult) (n : ℕ := 5) : List Hotspot :=
  ((rankedByCC (rFiles res)).take n).map (fun f =>
    { file := baseName f.path,
      cc_avg := pyRoundTo 1 (f.cc_avg.getD 0),
      mi := pyRoundTo 1 (f.mi.getD 0) })

/-- The comparison snapshot returned by `compare_results`. -/
structure ComparisonResult where
  metrics : List MetricRow
  top_hotspots : List Hotspot × List Hotspot
deriving DecidableEq

/-- `compare_results` (runner.py lines 42-67). -/
def compare_results (a b : AnalysisResult) : ComparisonResult :=
  let mi_a := (_radon_avgs a).1
  let cc_a := (_radon_avgs a).2
  let mi_b := (_radon_avgs b).1
  let cc_b := (_radon_avgs b).2
  { metrics :=
      [ finishRow "quality_score" (a.quality_score.getD 0) (b.quality_score.getD 0),
        finishRow "issues_found" ((a.issues_found.getD 0 : ℤ) : ℚ) ((b.issues_found.getD 0 : ℤ) : ℚ),
        finishRow "files_scanned" ((a.files_scanned.getD 0 : ℤ) : ℚ) ((b.files_scanned.getD 0 : ℤ) : ℚ),
        finishRow "pylint_total" ((_pylint_total a : ℤ) : ℚ) ((_pylint_total b : ℤ) : ℚ),
        finishRow "mi_avg" (pyRoundTo 1 mi_a) (pyRoundTo 1 mi_b),
        finishRow "cc_avg" (pyRoundTo 1 cc_a) (pyRoundTo 1 cc_b) ],
    top_hotspots := (_top_hotspots a, _top_hotspots b) }

/-! ## Per-file ranking (`recommender.py`) -/

/-- `score_file` (recommender.py lines 4-7). -/
def score_file (mi cc_avg : ℚ) : ℚ :=
  let mi_part := max 0 (min 100 mi)
  let cc_penalty := min 40 (max 0 ((cc_avg - 5) * 6))
  pyRoundTo 1 (mi_part - cc_penalty)

/-- Python `max(x :: rest, key=cc)`: the first element with the maximal
key (later elements replace the current best only on a strictly greater
key), as used at recommender.py line 17. -/
def maxByCC (x : CCItem) (rest : List CCItem) : CCItem :=
  rest.foldl (fun w i => if i.cc.getD 0 > w.cc.getD 0 then i else w) x

/-- `recommend_for_file` (recommender.py lines 9-19). -/
def recommend_for_file (f : RadonFile) : List String :=
  let mi := f.mi.getD 100
  let hot := f.cc_items.filter (fun i => decide (i.cc.getD 0 > 10))
  (if mi < 65 then
    ["MI<65 — split large functions, remove duplicates, and refactor into smaller helpers."]
   else []) ++
  (match hot, f.cc_items with
   | _ :: _, x :: rest =>
     let w := maxByCC x rest
     ["High complexity: `" ++ w.name ++ "` " ++ toString w.line ++ "-"
        ++ toString w.endLine ++ " (CC=" ++ toString (w.cc.getD 0) ++ "). Simplify conditions."]
   | _, _ => [])

/-- One entry of the `files` list built by `build_recommendations`
(recommender.py lines 47-54). -/
structure RecFile where
  path : String
  mi : ℚ
  cc_avg : ℚ
  score : ℚ
  suggestions : List String
  cc_items : List CCItem
deriving DecidableEq

/-- The per-file record (recommender.py lines 47-54); note the differing
defaults in the source: the displayed `mi` defaults to `0.0`, the score
input to `100.0`. -/
def recEntry (f : RadonFile) : RecFile :=
  { path := f.path,
    mi := pyRoundTo 1 (f.mi.getD 0),
    cc_avg := pyRoundTo 1 (f.cc_avg.getD 0),
    score := score_file (f.mi.getD 100) (f.cc_avg.getD 0),
    suggestions := recommend_for_file f,
    cc_items := f.cc_items }

/-- The ascending-score comparison used by the recommendation sort. -/
def recLe (r s : RecFile) : Bool := decide (r.score ≤ s.score)

/-- The ranked `files` list of `build_recommendations` (recommender.py lines
43-56): build the per-file records in discovery order, then
`files.sort(key=lambda r: r["score"])`, a stable ascending sort.  (The
`project_suggestions` part of the returned dictionary does not interact
with the ranking and is not embedded.) -/
def buildRecommendationFiles (analysis : AnalysisResult) : List RecFile :=
  ((rFiles analysis).map recEntry).mergeSort recLe

/-! ## Auxiliary definitions used in the claim statements -/

/-- Severity classes of the normalized pylint table. -/
inductive Sev
  | C
  | R
  | W
  | E
  | F
deriving DecidableEq

/-- The count stored for one severity class. -/
def Counts.get (c : Counts) : Sev → ℤ
  | .C => c.C
  | .R => c.R
  | .W => c.W
  | .E => c.E
  | .F => c.F

/-- Add `d` to the count of severity class `s`, leaving the others fixed. -/
def Counts.bump (c : Counts) (s : Sev) (d : ℤ) : Counts :=
  match s with
  | .C => { c with C := c.C + d }
  | .R => { c with R := c.R + d }
  | .W => { c with W := c.W + d }
  | .E => { c with E := c.E + d }
  | .F => { c with F := c.F + d }

/-- Replace the pylint `by_type` table of a result while keeping the
effective lint total and every other input unchanged. -/
def setByType (result : AnalysisResult) (bt : List (String × ℤ)) : AnalysisResult :=
  { result with pylint := some ⟨some ⟨some ((pSummary result).total.getD 0), some bt⟩⟩ }

/-- The base as the specification describes it (claim C3): arithmetic mean
of `maintainability_index` across files with known MI, `50.0` when no file
has a known MI.  Stated per the spec's words, to be compared with the
code's `avgMiBase`. -/
def specBaseKnownMi (result : AnalysisResult) : ℚ :=
  let known := (rFiles result).filterMap (fun f => f.mi)
  if known ≠ [] then known.sum / (known.length : ℕ) else 50

/-- The hotspot ordering the specification describes (claim C6):
strictly greater `average_complexity` first, ties by ascending MI. -/
def specHotspotOrder (h1 h2 : Hotspot) : Prop :=
  h1.cc_avg > h2.cc_avg ∨ (h1.cc_avg = h2.cc_avg ∧ h1.mi ≤ h2.mi)

instance : DecidableRel specHotspotOrder := fun h1 h2 => by
  unfold specHotspotOrder; infer_instance

/-- Swap the `better` labels `"A"` and `"B"`, leaving `"="` (and anything
else) unchanged. -/
def flipLabel (s : String) : String :=
  if s = "A" then "B" else if s = "B" then "A" else s

/-- A convenient constructor: an analysis result carrying a radon block and
a pylint block (the merged-result fields that the scoring reads). -/
def mkResult (files : List RadonFile) (summary : RadonSummary)
    (total : ℤ) (bt : List (String × ℤ)) : AnalysisResult :=
  { quality_score := none, issues_found := none, files_scanned := none,
    pylint := some ⟨some ⟨some total, some bt⟩⟩,
    radon := some ⟨some summary, some files⟩ }

/-- Claim C2's scenario: one file with MI 60, `mi_warnings = 1`,
`complexity_hotspots = 1`, lint `{warning: 2}` with total 2. -/
def c2input : AnalysisResult :=
  mkResult [⟨"mod.py", some 60, some 15, [⟨"f", 1, 20, some 15⟩]⟩]
    ⟨some 1, some 1, some 1⟩ 2 [("warning", 2)]

/-- Claim C9's scenario: zero files, zero lint messages in every severity
class, zero `mi_warnings` and `complexity_hotspots`. -/
def c9input : AnalysisResult :=
  mkResult [] ⟨some 0, some 0, some 0⟩ 0 []

/-- A result whose single radon file record lacks an MI value. -/
def c3inputA : AnalysisResult :=
  mkResult [⟨"a.py", none, none, []⟩] ⟨some 1, some 0, some 0⟩ 0 []

/-- A result with one file of known MI 100 and one file lacking MI. -/
def c3inputB : AnalysisResult :=
  mkResult [⟨"a.py", some 100, none, []⟩, ⟨"b.py", none, none, []⟩]
    ⟨some 2, some 0, some 0⟩ 0 []

/-- Two files of equal `cc_avg`; the first has the higher MI. -/
def c6input : AnalysisResult :=
  mkResult [⟨"a.py", some 90, some 5, []⟩, ⟨"b.py", some 10, some 5, []⟩]
    ⟨some 2, some 0, some 0⟩ 0 []

/-- A malformed analysis result: every field (quality score, file counts,
lint summary, radon data) is missing. -/
def emptyInput : AnalysisResult :=
  { quality_score := none, issues_found := none, files_scanned := none,
    pylint := none, radon := none }

/-- A small well-formed result used to witness the monotonicity claim. -/
def c4input : AnalysisResult :=
  mkResult [⟨"mod.py", some 80, some 2, []⟩] ⟨some 1, some 0, some 0⟩ 1
    [("warning", 1)]

/-! ## Helper lemmas about rounding, clamping and stable sorting -/

theorem pyRound_intCast (n : ℤ) : pyRound (n : ℚ) = n := by
  unfold pyRound
  rw [Int.floor_intCast]
  norm_num

theorem pyRound_ge_floor (q : ℚ) : ⌊q⌋ ≤ pyRound q := by
  unfold pyRound
  split_ifs <;> omega

theorem pyRound_le_floor_add_one (q : ℚ) : pyRound q ≤ ⌊q⌋ + 1 := by
  unfold pyRound
  split_ifs <;> omega

theorem pyRound_mono {q r : ℚ} (h : q ≤ r) : pyRound q ≤ pyRound r := by
  rcases lt_or_eq_of_le (Int.floor_mono h) with hf | hf
  · have h1 := pyRound_le_floor_add_one q
    have h2 := pyRound_ge_floor r
    omega
  · unfold pyRound
    rw [hf]
    have hqr : q - (⌊r⌋ : ℚ) ≤ r - (⌊r⌋ : ℚ) := by linarith
    split_ifs <;> first | omega | linarith

theorem pyRound_neg (q : ℚ) : pyRound (-q) = -pyRound q := by
  by_cases h0 : q - ⌊q⌋ = 0
  · have hq : q = ((⌊q⌋ : ℤ) : ℚ) := by linarith
    rw [hq, ← Int.cast_neg, pyRound_intCast, pyRound_intCast]
  · have h1 : 0 < q - ⌊q⌋ := lt_of_le_of_ne (by linarith [Int.floor_le q]) (Ne.symm h0)
    have h2 : q - ⌊q⌋ < 1 := by linarith [Int.lt_floor_add_one q]
    have hneg : ⌊-q⌋ = -⌊q⌋ - 1 := by
      rw [Int.floor_eq_iff]
      constructor
      · push_cast
        linarith
      · push_cast
        linarith
    unfold pyRound
    rw [hneg]
    push_cast
    split_ifs <;> first | omega | linarith

theorem pyRoundTo_neg (n : ℕ) (q : ℚ) : pyRoundTo n (-q) = -pyRoundTo n q := by
  unfold pyRoundTo
  rw [neg_mul, pyRound_neg]
  push_cast
  ring

theorem pyRoundTo_mono {n : ℕ} {q r : ℚ} (h : q ≤ r) : pyRoundTo n q ≤ pyRoundTo n r := by
  unfold pyRoundTo
  have hp : (0:ℚ) < 10 ^ n := by positivity
  have := pyRound_mono (mul_le_mul_of_nonneg_right h (le_of_lt hp))
  exact div_le_div_of_nonneg_right (by exact_mod_cast this) hp.le

theorem ratTrunc_of_nonneg {y : ℚ} (h : 0 ≤ y) : ratTrunc y = ⌊y⌋ := by
  simp [ratTrunc, h]

theorem _clamp_nonneg (x : ℚ) : 0 ≤ _clamp x := by
  unfold _clamp
  rw [ratTrunc_of_nonneg (le_max_left _ _)]
  exact Int.le_floor.mpr (by exact_mod_cast le_max_left _ _)

theorem _clamp_le_100 (x : ℚ) : _clamp x ≤ 100 := by
  unfold _clamp
  rw [ratTrunc_of_nonneg (le_max_left _ _)]
  have hb : max 0 (min 100 x) ≤ (100:ℚ) := max_le (by norm_num) (min_le_left _ _)
  calc ⌊max 0 (min 100 x)⌋ ≤ ⌊(100:ℚ)⌋ := Int.floor_mono hb
    _ = 100 := by norm_num

theorem _clamp_mono {x y : ℚ} (h : x ≤ y) : _clamp x ≤ _clamp y := by
  unfold _clamp
  rw [ratTrunc_of_nonneg (le_max_left _ _), ratTrunc_of_nonneg (le_max_left _ _)]
  exact Int.floor_mono (max_le_max le_rfl (min_le_min le_rfl h))

/-- Stability of `mergeSort` phrased through `filter`: restricted to any
class of mutually-`le` elements, the sorted list is the input list. -/
theorem mergeSort_filter_of_all {α : Type} (le : α → α → Bool)
    (htrans : ∀ a b c, le a b → le b c → le a c)
    (htotal : ∀ a b, le a b || le b a)
    (p : α → Bool) (hp : ∀ a b, p a → p b → le a b) (l : List α) :
    (l.mergeSort le).filter p = l.filter p := by
  have hpw : (l.filter p).Pairwise (fun a b => le a b = true) :=
    List.pairwise_of_forall_mem_list (fun a ha b hb =>
      hp a b (List.of_mem_filter ha) (List.of_mem_filter hb))
  have hsub : List.Sublist (l.filter p) (l.mergeSort le) :=
    List.sublist_mergeSort htrans htotal hpw (List.filter_sublist l)
  have hsub2 : List.Sublist ((l.filter p).filter p) ((l.mergeSort le).filter p) :=
    hsub.filter p
  rw [List.filter_filter] at hsub2
  have hsame : (fun a => p a && p a) = p := by
    funext a
    exact Bool.and_self (p a)
  rw [hsame] at hsub2
  have hperm : List.Perm ((l.mergeSort le).filter p) (l.filter p) :=
    (List.mergeSort_perm l le).filter p
  exact (hsub2.eq_of_length hperm.length_eq.symm).symm

/-- `_compute_quality_score` with its `let`-chain written out. -/
theorem score_eq (result : AnalysisResult) :
    _compute_quality_score result =
      _clamp (pyRound (avgMiBase result -
        (pylintPenalty (_pylint_counts (byTypeRaw result)) +
          (2 * (((rSummary result).mi_warnings.getD 0 : ℤ) : ℚ) +
            (3/2) * (((rSummary result).cc_hotspots.getD 0 : ℤ) : ℚ)) +
          (if ((((pSummary result).total.getD 0 : ℤ) : ℚ) /
                ((max 1 (filesScanned result) : ℤ) : ℚ)) > 3
            then (((((pSummary result).total.getD 0 : ℤ) : ℚ) /
                ((max 1 (filesScanned result) : ℤ) : ℚ)) - 3) * 2
            else 0))) : ℚ) := rfl

/-! ## Claim theorems -/

/-- C1: for every analysis result, the quality score returned by
`_compute_quality_score` is an integer satisfying `0 ≤ score ≤ 100`. -/
theorem quality_score_bounded (result : AnalysisResult) :
    0 ≤ _compute_quality_score result ∧ _compute_quality_score result ≤ 100 := by
  rw [score_eq]
  exact ⟨_clamp_nonneg _, _clamp_le_100 _⟩

/-- C9: a project with zero files, zero lint messages in every severity
class, and zero `mi_warnings`/`complexity_hotspots` scores exactly 50. -/
theorem empty_project_scores_50 : _compute_quality_score c9input = 50 := by
  rw [score_eq]
  norm_num [avgMiBase, rFiles, rSummary, pSummary, byTypeRaw, filesScanned,
    _pylint_counts, pylintPenalty, c9input, mkResult, pyRound, _clamp, ratTrunc]

/-- Shared evaluation: the score of the C2 scenario input is 54. -/
theorem c2_score_val : _compute_quality_score c2input = 54 := by
  rw [score_eq,
    show _pylint_counts (byTypeRaw c2input) = ⟨0, 0, 2, 0, 0⟩ from by decide]
  norm_num [avgMiBase, rFiles, rSummary, pSummary, filesScanned,
    pylintPenalty, c2input, mkResult, pyRound, _clamp, ratTrunc]

/-- C2 counterexample: on the spec's scenario (one file with MI 60,
`mi_warnings = 1`, `complexity_hotspots = 1`, lint `{warning: 2}`), the
code's quality score is not the claimed 55: Python's banker's rounding
takes the raw value 54.5 down to the even integer 54. -/
theorem scenario_score_not_55 :
    _compute_quality_score c2input = 54 ∧ ¬ _compute_quality_score c2input = 55 := by
  rw [c2_score_val]
  norm_num

/-- C2 amended: on the spec's scenario the quality score equals 54 — the
raw value is 54.5 and Python's `round` (ties to even) yields 54, which the
clamp keeps. -/
theorem scenario_score_54 : _compute_quality_score c2input = 54 :=
  c2_score_val

/-- C3 amended: the base of the quality score is the mean of `mi` over all
radon file records, a record lacking an MI value contributing `0.0`; the
base is the neutral `50.0` exactly when the file list is empty. -/
theorem base_mean_missing_as_zero (result : AnalysisResult) :
    avgMiBase result =
      if rFiles result = [] then 50
      else ((rFiles result).map (fun f => f.mi.getD 0)).sum /
        (((rFiles result).length : ℕ) : ℚ) := by
  unfold avgMiBase
  rcases h : rFiles result with _ | ⟨f, fs⟩
  · simp
  · have hmax : max 1 (f :: fs).length = (f :: fs).length :=
      Nat.max_eq_right (by simp)
    simp [hmax]

/-- C3 counterexample: a single file lacking MI gives base 0, not the
specified 50; and one file with MI 100 plus one lacking MI gives base 50,
not the specified mean 100 over known-MI files — a record lacking MI does
pull the mean toward 0. -/
theorem base_missing_mi_counterexample :
    avgMiBase c3inputA = 0 ∧ specBaseKnownMi c3inputA = 50 ∧
      ¬ avgMiBase c3inputA = specBaseKnownMi c3inputA ∧
      avgMiBase c3inputB = 50 ∧ specBaseKnownMi c3inputB = 100 ∧
      ¬ avgMiBase c3inputB = specBaseKnownMi c3inputB := by
  refine ⟨?_, ?_, ?_, ?_, ?_, ?_⟩ <;>
    norm_num [avgMiBase, specBaseKnownMi, rFiles, c3inputA, c3inputB, mkResult,
      List.filterMap_cons, List.filterMap_nil, Option.some_ne_none]

/-- Raising one severity count of the normalized table never lowers the
weighted pylint penalty (all five weights are positive). -/
theorem pylintPenalty_bump_le (c : Counts) (s : Sev) (d : ℤ) (hd : 0 ≤ d) :
    pylintPenalty c ≤ pylintPenalty (c.bump s d) := by
  have hdq : (0:ℚ) ≤ (d : ℤ) := by exact_mod_cast hd
  cases s <;> simp [pylintPenalty, Counts.bump] <;> linarith

/-- C4: increasing any single lint-severity count by a positive amount
while holding every other input fixed never increases the quality score. -/
theorem quality_score_antitone_in_lint (result : AnalysisResult)
    (bt : List (String × ℤ)) (s : Sev) (d : ℤ) (hd : 0 < d)
    (hbt : _pylint_counts bt = (_pylint_counts (byTypeRaw result)).bump s d) :
    _compute_quality_score (setByType result bt) ≤ _compute_quality_score result := by
  rw [score_eq, score_eq]
  have e1 : avgMiBase (setByType result bt) = avgMiBase result := rfl
  have e2 : rSummary (setByType result bt) = rSummary result := rfl
  have e4 : filesScanned (setByType result bt) = filesScanned result := rfl
  have e5 : byTypeRaw (setByType result bt) = bt := rfl
  have e6 : (pSummary (setByType result bt)).total.getD 0 =
      (pSummary result).total.getD 0 := rfl
  rw [e1, e2, e4, e5, e6, hbt]
  have hpen : pylintPenalty (_pylint_counts (byTypeRaw result)) ≤
      pylintPenalty ((_pylint_counts (byTypeRaw result)).bump s d) :=
    pylintPenalty_bump_le _ s d hd.le
  exact _clamp_mono (by exact_mod_cast pyRound_mono (by linarith))

/-- C4 witness: the monotonicity theorem applied at a concrete input,
raising the `warning` count from 1 to 4. -/
theorem quality_score_antitone_witness :
    (0:ℤ) < 3 ∧
      _pylint_counts [("warning", 4)] = (_pylint_counts (byTypeRaw c4input)).bump .W 3 ∧
      _compute_quality_score (setByType c4input [("warning", 4)]) ≤
        _compute_quality_score c4input :=
  ⟨by decide, by decide,
    quality_score_antitone_in_lint c4input [("warning", 4)] .W 3 (by decide)
      (by decide)⟩

/-- Swapping the two values of a row negates its delta. -/
theorem finishRow_delta_swap (m : String) (a b : ℚ) :
    (finishRow m b a).delta = -(finishRow m a b).delta := by
  simp only [finishRow]
  rw [show a - b = -(b - a) by ring, pyRoundTo_neg]

/-- Swapping the two values of a row flips its `better` label. -/
theorem finishRow_better_swap (m : String) (a b : ℚ) :
    (finishRow m b a).better = flipLabel (finishRow m a b).better := by
  by_cases hab : a = b
  · simp [finishRow, hab, flipLabel]
  · by_cases hm : m = "quality_score" ∨ m = "mi_avg"
    · rcases lt_or_gt_of_ne hab with h | h <;>
        simp [finishRow, flipLabel, hm, hab, Ne.symm hab, gt_iff_lt, h,
          lt_asymm h, not_lt.mpr h.le]
    · rcases lt_or_gt_of_ne hab with h | h <;>
        simp [finishRow, flipLabel, hm, hab, Ne.symm hab, gt_iff_lt, h,
          lt_asymm h, not_lt.mpr h.le]

/-- C5: swapping the compared results negates every metric row's delta and
swaps the `"A"`/`"B"` winner labels, ties (`"="`) staying ties. -/
theorem compare_results_swap (a b : AnalysisResult) :
    (compare_results b a).metrics.map (fun r => r.delta) =
      (compare_results a b).metrics.map (fun r => -r.delta) ∧
    (compare_results b a).metrics.map (fun r => r.better) =
      (compare_results a b).metrics.map (fun r => flipLabel r.better) := by
  refine ⟨?_, ?_⟩
  · simp only [compare_results, List.map_cons, List.map_nil, List.cons.injEq,
      and_true]
    exact ⟨finishRow_delta_swap _ _ _, finishRow_delta_swap _ _ _,
      finishRow_delta_swap _ _ _, finishRow_delta_swap _ _ _,
      finishRow_delta_swap _ _ _, finishRow_delta_swap _ _ _⟩
  · simp only [compare_results, List.map_cons, List.map_nil, List.cons.injEq,
      and_true]
    exact ⟨finishRow_better_swap _ _ _, finishRow_better_swap _ _ _,
      finishRow_better_swap _ _ _, finishRow_better_swap _ _ _,
      finishRow_better_swap _ _ _, finishRow_better_swap _ _ _⟩

/-- C7 counterexample: comparing two fully-malformed results (every field
missing) does not fail — the comparator silently defaults every value and
returns a complete six-row comparison with zero deltas and empty hotspot
lists. -/
theorem compare_malformed_succeeds :
    (compare_results emptyInput emptyInput).metrics.map (fun r => r.metric) =
      ["quality_score", "issues_found", "files_scanned", "pylint_total",
        "mi_avg", "cc_avg"] ∧
    (compare_results emptyInput emptyInput).metrics.map (fun r => r.delta) =
      [0, 0, 0, 0, 0, 0] ∧
    (compare_results emptyInput emptyInput).top_hotspots = ([], []) := by
  refine ⟨?_, ?_, ?_⟩ <;>
    norm_num [compare_results, finishRow, _radon_avgs, _avg, rFiles, emptyInput,
      _pylint_total, pSummary, _top_hotspots, rankedByCC, List.mergeSort_nil,
      pyRoundTo, pyRound]

/-- C7 amended: `compare_results` is total — on any pair of results,
malformed or not, it returns the six metric rows in their fixed order
(missing fields are defaulted, never rejected). -/
theorem compare_results_total (a b : AnalysisResult) :
    (compare_results a b).metrics.map (fun r => r.metric) =
      ["quality_score", "issues_found", "files_scanned", "pylint_total",
        "mi_avg", "cc_avg"] := by
  simp [compare_results, finishRow]

theorem hotspotLe_trans : ∀ x y z : RadonFile,
    hotspotLe x y → hotspotLe y z → hotspotLe x z := by
  intro x y z hxy hyz
  simp only [hotspotLe, decide_eq_true_eq] at *
  exact le_trans hyz hxy

theorem hotspotLe_total : ∀ x y : RadonFile, hotspotLe x y || hotspotLe y x := by
  intro x y
  simp only [hotspotLe, Bool.or_eq_true, decide_eq_true_eq]
  exact le_total _ _

/-- The hotspot ranking is sorted by descending `cc_avg`. -/
theorem rankedByCC_sorted (files : List RadonFile) :
    (rankedByCC files).Pairwise (fun f g => g.cc_avg.getD 0 ≤ f.cc_avg.getD 0) :=
  (List.sorted_mergeSort hotspotLe_trans hotspotLe_total files).imp
    (fun h => by simpa [hotspotLe] using h)

/-- C6 amended: each side's hotspot list has at most 5 entries and is
sorted descending by `average_complexity`; among files of equal
`average_complexity` the original discovery order is kept (the comparator's
sort key has no MI tie-break). -/
theorem top_hotspots_sorted (res : AnalysisResult) :
    (_top_hotspots res 5).length ≤ 5 ∧
    (_top_hotspots res 5).Pairwise (fun h1 h2 => h2.cc_avg ≤ h1.cc_avg) ∧
    ∀ c : ℚ, (rankedByCC (rFiles res)).filter (fun f => decide (f.cc_avg.getD 0 = c)) =
      (rFiles res).filter (fun f => decide (f.cc_avg.getD 0 = c)) := by
  refine ⟨?_, ?_, ?_⟩
  · simp only [_top_hotspots, List.length_map, List.length_take]
    omega
  · unfold _top_hotspots
    exact List.pairwise_map.mpr
      (((rankedByCC_sorted (rFiles res)).take).imp (fun h => pyRoundTo_mono h))
  · intro c
    unfold rankedByCC
    exact mergeSort_filter_of_all hotspotLe hotspotLe_trans hotspotLe_total _
      (fun f g hf hg => by
        simp only [decide_eq_true_eq] at hf hg
        simp [hotspotLe, hf, hg]) _

/-- C6 counterexample: two files of equal `cc_avg` where the first
discovered has the higher MI stay in discovery order, so the produced
hotspot list is not ordered by ascending MI within the tie. -/
theorem top_hotspots_tie_counterexample :
    _top_hotspots c6input 5 = [⟨"a.py", 5, 90⟩, ⟨"b.py", 5, 10⟩] ∧
      ¬ (_top_hotspots c6input 5).Pairwise specHotspotOrder := by
  have hr : rankedByCC (rFiles c6input) = rFiles c6input := by
    apply List.mergeSort_of_sorted
    show List.Pairwise _ (rFiles c6input)
    rw [show rFiles c6input =
      [⟨"a.py", some 90, some 5, []⟩, ⟨"b.py", some 10, some 5, []⟩] from rfl]
    refine List.pairwise_cons.mpr ⟨?_, List.pairwise_singleton _ _⟩
    intro g hg
    simp only [List.mem_singleton] at hg
    subst hg
    simp [hotspotLe]
  have h1 : _top_hotspots c6input 5 = [⟨"a.py", 5, 90⟩, ⟨"b.py", 5, 10⟩] := by
    unfold _top_hotspots
    rw [hr, show rFiles c6input =
      [⟨"a.py", some 90, some 5, []⟩, ⟨"b.py", some 10, some 5, []⟩] from rfl]
    norm_num [baseName, pyRoundTo, pyRound]
    constructor <;> decide
  refine ⟨h1, ?_⟩
  rw [h1]
  simp only [List.pairwise_cons, List.pairwise_singleton, List.mem_singleton,
    and_true]
  intro hcon
  have := hcon.1 _ rfl
  simp only [specHotspotOrder] at this
  rcases this with h | ⟨-, h⟩
  · exact absurd h (by norm_num)
  · exact absurd h (by norm_num)

theorem recLe_trans : ∀ x y z : RecFile, recLe x y → recLe y z → recLe x z := by
  intro x y z hxy hyz
  simp only [recLe, decide_eq_true_eq] at *
  exact le_trans hxy hyz

theorem recLe_total : ∀ x y : RecFile, recLe x y || recLe y x := by
  intro x y
  simp only [recLe, Bool.or_eq_true, decide_eq_true_eq]
  exact le_total _ _

/-- C8: the recommendation file list is sorted ascending by the per-file
heuristic score `score_file` (clamped MI minus the capped complexity
penalty, rounded to 1 decimal), and files of equal score keep their
original discovery order. -/
theorem build_recommendations_sorted (analysis : AnalysisResult) :
    (buildRecommendationFiles analysis).Pairwise (fun r s => r.score ≤ s.score) ∧
    ∀ q : ℚ, (buildRecommendationFiles analysis).filter (fun r => decide (r.score = q)) =
      ((rFiles analysis).map recEntry).filter (fun r => decide (r.score = q)) := by
  constructor
  · exact (List.sorted_mergeSort recLe_trans recLe_total _).imp
      (fun h => by simpa [recLe] using h)
  · intro q
    unfold buildRecommendationFiles
    exact mergeSort_filter_of_all recLe recLe_trans recLe_total _
      (fun r s hr hs => by
        simp only [decide_eq_true_eq] at hr hs
        simp [recLe, hr, hs]) _

/-- C10: for every MI value and every average-complexity value, the
per-file heuristic score lies in the closed interval [-40, 100]. -/
theorem score_file_bounded (mi cc_avg : ℚ) :
    -40 ≤ score_file mi cc_avg ∧ score_file mi cc_avg ≤ 100 := by
  unfold score_file
  have hmi1 : (0:ℚ) ≤ max 0 (min 100 mi) := le_max_left _ _
  have hmi2 : max 0 (min 100 mi) ≤ 100 := max_le (by norm_num) (min_le_left _ _)
  have hp1 : (0:ℚ) ≤ min 40 (max 0 ((cc_avg - 5) * 6)) :=
    le_min (by norm_num) (le_max_left _ _)
  have hp2 : min 40 (max 0 ((cc_avg - 5) * 6)) ≤ 40 := min_le_left _ _
  constructor
  · calc (-40:ℚ) = pyRoundTo 1 (-40) := by norm_num [pyRoundTo, pyRound]
      _ ≤ _ := pyRoundTo_mono (by linarith)
  · calc pyRoundTo 1 _ ≤ pyRoundTo 1 100 := pyRoundTo_mono (by linarith)
      _ = 100 := by norm_num [pyRoundTo, pyRound]

end CodeInsight
